import Mathlib

/-!
Shallow embedding of the order-validation and hedge-construction core of
`predicto_api` (files `predicto_api/alpaca_api_wrapper.py` and
`predicto_api/predicto_api_wrapper.py`).

Prices are modelled as exact rationals (`ℚ`), share quantities as integers
(`ℤ`).  Python code that can raise is modelled with `Except PyErr`.  Each
`return` statement of the Python validator is mapped to a `Decision`
constructor; the distinct rejection constructors correspond to the distinct
console messages printed at the distinct early-return points of
`validate_latest_price_and_stoploss`.
-/

/-- `TradeAction(enum.IntEnum)` from `predicto_api_wrapper.py`:
`Noaction = 0, Buy = 1, Sell = 2`. -/
inductive TradeAction where
  | noaction
  | buy
  | sell
deriving DecidableEq

/-- `TradeOrderType(enum.IntEnum)` from `predicto_api_wrapper.py`:
`Market = 0, Bracket = 1, TrailingStop = 2`. -/
inductive TradeOrderType where
  | market
  | bracket
  | trailingStop
deriving DecidableEq

/-- Labels for the distinct soft-rejection early returns of
`validate_latest_price_and_stoploss` (each corresponds to one distinct
`print`/`return (False, ...)` site in the source). -/
inductive VReject where
  | budgetTooSmall
  | budgetExceeded
  | targetAlreadyHit
  | noActionReject
  | riskExceedsReward
deriving DecidableEq

/-- Python exceptions that the modelled code can raise. -/
inductive PyErr where
  | wrongTradeAction
  | badPriceOrdering
  | investmentAmountRequired
  | postCheckFailed
  | unboundLocalTrailingPercent
  | attributeErrorNone
deriving DecidableEq

/-- The value returned by `validate_latest_price_and_stoploss`: the Python
tuple `(goAheadWithTrade, newStartingPrice, targetSellPrice, stopLossPrice,
newQuantity)`, with the rejection returns tagged by their print site.  The
target/stop positions of the tuple are `None` at the early budget and
already-moved returns, hence `Option ℚ` on `reject`. -/
inductive Decision where
  | reject (reason : VReject) (newStartingPrice : ℚ)
      (targetPrice stopPrice : Option ℚ) (newQuantity : ℤ)
  | accept (newStartingPrice targetPrice stopPrice : ℚ) (newQuantity : ℤ)
deriving DecidableEq

/-- Third tuple position (target price) of the returned decision. -/
def Decision.targetOpt : Decision → Option ℚ
  | .reject _ _ t _ _ => t
  | .accept _ t _ _ => some t

/-- Fourth tuple position (stop-loss price) of the returned decision. -/
def Decision.stopOpt : Decision → Option ℚ
  | .reject _ _ _ s _ => s
  | .accept _ _ s _ => some s

/-- The rejection reason carried by a result, if any. -/
def vReason : Except PyErr Decision → Option VReject
  | .ok (.reject r _ _ _ _) => some r
  | _ => none

/-- `True` exactly when the validator returned `goAheadWithTrade = True`. -/
def isAccept : Except PyErr Decision → Bool
  | .ok (.accept _ _ _ _) => true
  | _ => false

/-- `True` exactly when the validator returned `goAheadWithTrade = False`
(a soft rejection, not a raised exception). -/
def isSoftReject : Except PyErr Decision → Bool
  | .ok (.reject _ _ _ _ _) => true
  | _ => false

/-- `AlpacaApiWrapper.validate_latest_price_and_stoploss` from
`alpaca_api_wrapper.py` (lines 231-314).  The live price that the Python
method reads through `self.get_latest_price(symbol)` is passed in as the
`latestPrice` parameter; everything else follows the source line by line:

* `if action not in [TradeAction.Buy, TradeAction.Sell]: raise`
* Buy/Sell price-ordering precondition raises
* `if investmentAmount is None: raise`
* `if qty is None: qty = math.floor(investmentAmount/latestPrice)`,
  with `qty == 0` an early `(False, latestPrice, None, None, qty)` return
* `if (qty * latestPrice) > investmentAmount` early return
* target-already-hit early returns for Buy/Sell, `Noaction` early return
* stop-loss recomputation preserving the original percentage loss
* risk-exceeds-reward early return (this one carries the recomputed prices)
* fatal ordering re-check raises
* final `(True, newStartingPrice, targetSellPrice, newStopLossPrice,
  newQuantity)`.

The method is embedded as two definitions composed exactly as the source
reads: `validateTail` is lines 275-314 (everything after
`newQuantity = qty; newStartingPrice = latestPrice`), and
`validate_latest_price_and_stoploss` below is lines 252-273 ending in a
tail call into it. -/
def validateTail (action : TradeAction)
    (startingPrice targetSellPrice stopLossPrice latestPrice : ℚ)
    (newQuantity : ℤ) : Except PyErr Decision :=
  let newStartingPrice := latestPrice
  if action = TradeAction.buy ∧ latestPrice ≥ targetSellPrice then
    .ok (.reject .targetAlreadyHit latestPrice none none newQuantity)
  else if action = TradeAction.sell ∧ latestPrice ≤ targetSellPrice then
    .ok (.reject .targetAlreadyHit latestPrice none none newQuantity)
  else if action = TradeAction.noaction then
    .ok (.reject .noActionReject latestPrice none none newQuantity)
  else
    let stopLossPercent := (stopLossPrice - startingPrice) / startingPrice
    let newStopLossPrice := newStartingPrice + newStartingPrice * stopLossPercent
    let newTargetSellPrice := targetSellPrice
    let newTargetSellPercent := (targetSellPrice - newStartingPrice) / newStartingPrice
    if |newTargetSellPercent| < |stopLossPercent| then
      .ok (.reject .riskExceedsReward newStartingPrice (some targetSellPrice)
        (some newStopLossPrice) newQuantity)
    else if action = TradeAction.buy ∧
        (newTargetSellPrice ≤ newStartingPrice ∨ newStopLossPrice ≥ newStartingPrice) then
      .error .postCheckFailed
    else if action = TradeAction.sell ∧
        (newTargetSellPrice ≥ newStartingPrice ∨ newStopLossPrice ≤ newStartingPrice) then
      .error .postCheckFailed
    else
      .ok (.accept newStartingPrice targetSellPrice newStopLossPrice newQuantity)

/-- Lines 252-273 of `AlpacaApiWrapper.validate_latest_price_and_stoploss`
(preconditions, budget handling and quantity derivation), ending in the
tail of the method; see the doc comment on `validateTail`. -/
def validate_latest_price_and_stoploss (action : TradeAction) (qty : Option ℤ)
    (investmentAmount : Option ℚ)
    (startingPrice targetSellPrice stopLossPrice latestPrice : ℚ) :
    Except PyErr Decision :=
  if action ≠ TradeAction.buy ∧ action ≠ TradeAction.sell then
    .error .wrongTradeAction
  else if action = TradeAction.buy ∧
      (targetSellPrice ≤ startingPrice ∨ stopLossPrice ≥ startingPrice) then
    .error .badPriceOrdering
  else if action = TradeAction.sell ∧
      (targetSellPrice ≥ startingPrice ∨ stopLossPrice ≤ startingPrice) then
    .error .badPriceOrdering
  else
    match investmentAmount with
    | none => .error .investmentAmountRequired
    | some budget =>
      let q : ℤ := qty.getD ⌊budget / latestPrice⌋
      if qty = none ∧ q = 0 then
        .ok (.reject .budgetTooSmall latestPrice none none q)
      else if (q : ℚ) * latestPrice > budget then
        .ok (.reject .budgetExceeded latestPrice none none q)
      else
        validateTail action startingPrice targetSellPrice stopLossPrice latestPrice q

/-- The fields of an alpaca order object that the modelled code reads.
`filled_qty` is an integral share count (the Python code reads it through
`int(parentOrder.filled_qty)`; we assume a parseable integer). -/
structure AlpacaOrder where
  id : String
  symbol : String
  side : String
  filled_qty : ℤ
  status : String
deriving DecidableEq

/-- The fields of an alpaca position object that the modelled code reads. -/
structure AlpacaPosition where
  symbol : String
  qty : ℤ
deriving DecidableEq

/-- `AlpacaApiWrapper.validate_parent_order_filled_and_match` from
`alpaca_api_wrapper.py` (lines 316-341).  The Python body initialises
`ok = True`, downgrades it to `False` at each failed check, and returns it.
When `parentOrder is None` the first check sets `ok = False`, but the very
next line evaluates `parentOrder.symbol`, which raises `AttributeError` on
`None`; that raise is the `.error .attributeErrorNone` case. -/
def validate_parent_order_filled_and_match (parentOrder : Option AlpacaOrder)
    (symbol : String) : Except PyErr Bool :=
  match parentOrder with
  | none => .error .attributeErrorNone
  | some po =>
    let ok := true
    let ok := if po.symbol ≠ symbol then false else ok
    let ok := if po.filled_qty = 0 then false else ok
    let ok := if po.status ≠ "filled" then false else ok
    .ok ok

/-- `AlpacaApiWrapper.get_and_validate_quantity_to_hedge` from
`alpaca_api_wrapper.py` (lines 343-362), with the brokerage reads passed in:
`parentOrderFilledQty` is `int(parentOrder.filled_qty)` and
`openPositionRawQty` is the signed `int(openPosition.qty)` of the currently
open position for the symbol.  Mirrors the source:
`openPositionQty = abs(int(openPosition.qty))`; if
`abs(openPositionQty) < originalOrderQuantity` the hedge quantity is capped
to `abs(openPositionQty)`, otherwise the parent's filled quantity is used. -/
def get_and_validate_quantity_to_hedge (parentOrderFilledQty openPositionRawQty : ℤ) : ℤ :=
  let openPositionQty := |openPositionRawQty|
  let originalOrderQuantity := parentOrderFilledQty
  if |openPositionQty| < originalOrderQuantity then |openPositionQty|
  else originalOrderQuantity

/-- The brokerage responses that one call of `AlpacaApiWrapper.submit_order`
can observe, in the order the source reads them: the market clock, the
currently held position for the symbol, the filled orders for the symbol in
the last 7 hours, the latest price, the entry order returned by the
brokerage submission, and the results of the successive
`open_trailing_stop_position` calls of the retry loop (`none` = that attempt
failed to attach the hedge). -/
structure BrokerageEnv where
  clockIsOpen : Bool
  holdingPosition : Option AlpacaPosition
  filledOrdersSince : List AlpacaOrder
  latestPrice : ℚ
  entryOrder : Option AlpacaOrder
  hedgeAttemptResults : List (Option AlpacaOrder)

/-- The tuple returned by `AlpacaApiWrapper.submit_order`:
`(order, newStartingPrice, newTargetPrice, newStopLossPrice,
trailing_percent, newQuantity)`. -/
structure SubmitTuple where
  order : Option AlpacaOrder
  newStartingPrice : ℚ
  newTargetPrice : ℚ
  newStopLossPrice : ℚ
  trailing_percent : Option ℚ
  newQuantity : ℤ

/-- One full run of `AlpacaApiWrapper.submit_order`: its Python return value
(`none` models the early `return None` exits, an exception is `.error`),
together with whether `self.api.cancel_order(order.id)` was issued for the
entry order during the run. -/
structure SubmitOutcome where
  result : Except PyErr (Option SubmitTuple)
  cancelledEntryOrder : Bool

/-- The retry loop of `submit_order` (lines 120-126): up to `fuel` (= 5)
calls of `open_trailing_stop_position`, stopping at the first one that
returns an order.  The successive call results are drawn from `attempts`. -/
def retryTrailingAttach : ℕ → List (Option AlpacaOrder) → Option AlpacaOrder
  | 0, _ => none
  | _ + 1, [] => none
  | fuel + 1, a :: rest =>
    match a with
    | some o => some o
    | none => retryTrailingAttach fuel rest

/-- `AlpacaApiWrapper.submit_order` from `alpaca_api_wrapper.py`
(lines 22-137), with the brokerage modelled by `env`:

* TrailingStop orders are refused (`return None`) when the market is closed;
* `return None` when already holding a position for the symbol;
* `return None` when the symbol had filled orders in the last 7 hours;
* `return None` when validation does not go ahead; a raise inside
  validation propagates;
* Market branch: submits the market order and binds the local `order`, but
  never assigns the local `trailing_percent`; the final
  `return (order, ..., trailing_percent, ...)` therefore raises
  `UnboundLocalError`, modelled as `.error .unboundLocalTrailingPercent`;
* Bracket branch: one submission, `trailing_percent = None`;
* TrailingStop branch: computes
  `trailing_percent = max(abs(newStop - newStart)/newStart * 100, 0.1)`,
  submits the market entry, then retries the hedge attach up to 5 times;
  if the entry exists and all attempts fail, `cancel_order` is issued and
  the function still falls through to the final tuple return. -/
def submit_order (env : BrokerageEnv) (trade_order_type : TradeOrderType)
    (action : TradeAction) (qty : Option ℤ) (investmentAmount : Option ℚ)
    (startingPrice targetSellPrice stopLossPrice : ℚ) : SubmitOutcome :=
  if trade_order_type = TradeOrderType.trailingStop ∧ ¬env.clockIsOpen then
    ⟨.ok none, false⟩
  else if env.holdingPosition.isSome then
    ⟨.ok none, false⟩
  else if env.filledOrdersSince.length > 0 then
    ⟨.ok none, false⟩
  else
    match validate_latest_price_and_stoploss action qty investmentAmount
        startingPrice targetSellPrice stopLossPrice env.latestPrice with
    | .error e => ⟨.error e, false⟩
    | .ok (.reject _ _ _ _ _) => ⟨.ok none, false⟩
    | .ok (.accept newStartingPrice newTargetPrice newStopLossPrice newQuantity) =>
      match trade_order_type with
      | .market =>
        ⟨.error .unboundLocalTrailingPercent, false⟩
      | .bracket =>
        ⟨.ok (some ⟨env.entryOrder, newStartingPrice, newTargetPrice,
          newStopLossPrice, none, newQuantity⟩), false⟩
      | .trailingStop =>
        let trailing_percent :=
          max ((|newStopLossPrice - newStartingPrice| / newStartingPrice) * 100) (1 / 10)
        match env.entryOrder with
        | none =>
          ⟨.ok (some ⟨none, newStartingPrice, newTargetPrice, newStopLossPrice,
            some trailing_percent, newQuantity⟩), false⟩
        | some o =>
          match retryTrailingAttach 5 env.hedgeAttemptResults with
          | some _ =>
            ⟨.ok (some ⟨some o, newStartingPrice, newTargetPrice, newStopLossPrice,
              some trailing_percent, newQuantity⟩), false⟩
          | none =>
            ⟨.ok (some ⟨some o, newStartingPrice, newTargetPrice, newStopLossPrice,
              some trailing_percent, newQuantity⟩), true⟩

/-- The check `if alpaca_order_result is not None` by which
`PredictoApiWrapper.submit_latest_trade_picks` (lines 252-256 of
`predicto_api_wrapper.py`) decides to append the symbol to its
`symbols_submitted` list. -/
def reportedAsSubmitted (outcome : SubmitOutcome) : Bool :=
  match outcome.result with
  | .ok (some _) => true
  | _ => false

/-- C1: for a Market-type order with every guard passing (market state
irrelevant, no held position, no recent fills), a validation that accepts
(entry 100, target 110, stop 95, budget 1000, live price 100, quantity
derived as 10) and a brokerage that accepts the submission, `submit_order`
does not terminate in the Done outcome with the order and final prices and
no trailing-stop percent: the Market branch never assigns the local
`trailing_percent`, so the final return raises `UnboundLocalError`. -/
theorem market_branch_raises_unbound_local :
    validate_latest_price_and_stoploss .buy none (some 1000) 100 110 95 100 =
        .ok (.accept 100 110 95 10) ∧
    (submit_order ⟨true, none, [], 100, some ⟨"id1", "AAPL", "buy", 10, "filled"⟩, []⟩
        .market .buy none (some 1000) 100 110 95).result =
      .error .unboundLocalTrailingPercent := by
  constructor
  · norm_num +decide [validate_latest_price_and_stoploss, validateTail, abs_eq_max_neg]
  · norm_num +decide [submit_order, validate_latest_price_and_stoploss, validateTail, abs_eq_max_neg]

/-- C2: for a TrailingStop order whose market entry was accepted but whose
trailing-stop hedge attachment fails on all 5 retry attempts, the code does
cancel the entry order, but the final result is still the full success
tuple carrying the entry order (trailing percent 5), so
`submit_latest_trade_picks` counts the symbol as submitted: the trade is
reported as a successfully submitted order, not as failed/rolled back. -/
theorem trailing_exhaustion_cancels_but_returns_tuple :
    (submit_order ⟨true, none, [], 100, some ⟨"id1", "AAPL", "buy", 10, "filled"⟩,
        [none, none, none, none, none]⟩
        .trailingStop .buy none (some 1000) 100 110 95).cancelledEntryOrder = true ∧
    (submit_order ⟨true, none, [], 100, some ⟨"id1", "AAPL", "buy", 10, "filled"⟩,
        [none, none, none, none, none]⟩
        .trailingStop .buy none (some 1000) 100 110 95).result =
      .ok (some ⟨some ⟨"id1", "AAPL", "buy", 10, "filled"⟩, 100, 110, 95, some 5, 10⟩) ∧
    reportedAsSubmitted
      (submit_order ⟨true, none, [], 100, some ⟨"id1", "AAPL", "buy", 10, "filled"⟩,
        [none, none, none, none, none]⟩
        .trailingStop .buy none (some 1000) 100 110 95) = true := by
  refine ⟨?_, ?_, ?_⟩ <;>
    norm_num +decide [submit_order, validate_latest_price_and_stoploss, validateTail,
      retryTrailingAttach, reportedAsSubmitted, abs_eq_max_neg, max_def]

/-- C4 counterexample: called with `NoAction` and a non-null budget, the
Validator does not return the `no_action` soft rejection: the very first
precondition check (`action not in [Buy, Sell]`) raises, so the
`Noaction` soft-rejection branch further down is never reached. -/
theorem noaction_soft_reject_cx :
    validate_latest_price_and_stoploss .noaction none (some 1000) 100 110 95 100 =
      .error .wrongTradeAction := by
  norm_num +decide [validate_latest_price_and_stoploss]

/-- C4 amended: calling the Validator with `NoAction` (whatever the budget
and prices) raises the fatal wrong-trade-action error; the `no_action`
soft-rejection branch of the source is unreachable dead code. -/
theorem noaction_always_raises (qty : Option ℤ) (investmentAmount : Option ℚ)
    (startingPrice targetSellPrice stopLossPrice latestPrice : ℚ) :
    validate_latest_price_and_stoploss .noaction qty investmentAmount
      startingPrice targetSellPrice stopLossPrice latestPrice =
      .error .wrongTradeAction := by
  norm_num +decide [validate_latest_price_and_stoploss]

/-- C5: when the parent order lookup yields no order, hedge construction
does not reject with a `parent_missing` reason: after noting the missing
parent the very next check evaluates `parentOrder.symbol` on `None`, which
raises `AttributeError` instead of returning the rejection. -/
theorem parent_missing_raises :
    validate_parent_order_filled_and_match none "AAPL" =
      .error .attributeErrorNone := rfl

/-- C6 counterexample: an input satisfying all the Validator's stated
preconditions (Buy with stop `-11` < entry `-10` < target `100`) and a
positive latest price `1` reaches the post-condition re-check with no soft
rejection fired, yet the recomputed values violate the ordering invariant
(the recomputed stop `1.1` is above the new entry `1`), so the fatal
exception branch executes. -/
theorem postcheck_reachable_cx :
    ((-11 : ℚ) < -10 ∧ (-10 : ℚ) < 100 ∧ (0 : ℚ) < 1) ∧
    validate_latest_price_and_stoploss .buy (some 1) (some 1000) (-10) 100 (-11) 1 =
      .error .postCheckFailed := by
  refine ⟨by norm_num, ?_⟩
  norm_num +decide [validate_latest_price_and_stoploss, validateTail, abs_eq_max_neg]

/-- C8: for every parent order and open position (integral quantities), the
hedge quantity returned by `get_and_validate_quantity_to_hedge` is at most
the absolute value of the currently open position quantity, even when the
parent's filled quantity is larger: the hedge never exceeds what is
actually held. -/
theorem hedge_qty_le_open_position (parentOrderFilledQty openPositionRawQty : ℤ) :
    get_and_validate_quantity_to_hedge parentOrderFilledQty openPositionRawQty ≤
      |openPositionRawQty| := by
  simp only [get_and_validate_quantity_to_hedge, abs_abs]
  split_ifs with h
  · exact le_rfl
  · exact le_of_not_lt h

lemma validateTail_stop_target (action : TradeAction)
    (startingPrice targetSellPrice stopLossPrice latestPrice : ℚ) (q : ℤ)
    (d : Decision) (s : ℚ)
    (hl : latestPrice ≠ 0)
    (hres : validateTail action startingPrice targetSellPrice stopLossPrice latestPrice q = .ok d)
    (hstop : d.stopOpt = some s) :
    (s - latestPrice) / latestPrice =
      (stopLossPrice - startingPrice) / startingPrice ∧
    d.targetOpt = some targetSellPrice := by
  simp only [validateTail] at hres
  split_ifs at hres <;> injection hres with h <;> subst h <;>
    simp only [Decision.stopOpt, Decision.targetOpt, Option.some.injEq] at hstop ⊢ <;>
      first
        | exact Option.noConfusion hstop
        | (subst hstop
           exact ⟨by rw [add_sub_cancel_left, mul_div_cancel_left₀ _ hl], by trivial⟩)

/-- C3: whenever validation reaches the stop-recomputation step (the result
carries a recomputed stop-loss price, which happens exactly for the
risk-exceeds-reward rejection and for acceptance), the recomputed stop
preserves the original percentage risk relative to the new entry exactly:
`(newStop - newEntry)/newEntry = (origStop - origEntry)/origEntry` in exact
rational arithmetic, and the target price returned is the original target,
never recomputed. -/
theorem recomputed_stop_preserves_risk
    (action : TradeAction) (qty : Option ℤ) (investmentAmount : Option ℚ)
    (startingPrice targetSellPrice stopLossPrice latestPrice : ℚ)
    (d : Decision) (s : ℚ)
    (hlatest : 0 < latestPrice)
    (hres : validate_latest_price_and_stoploss action qty investmentAmount
      startingPrice targetSellPrice stopLossPrice latestPrice = .ok d)
    (hstop : d.stopOpt = some s) :
    (s - latestPrice) / latestPrice =
      (stopLossPrice - startingPrice) / startingPrice ∧
    d.targetOpt = some targetSellPrice := by
  cases investmentAmount with
  | none =>
    simp only [validate_latest_price_and_stoploss] at hres
    split_ifs at hres
  | some budget =>
    simp only [validate_latest_price_and_stoploss] at hres
    split_ifs at hres <;>
      first
        | exact Except.noConfusion hres
        | (injection hres with h
           subst h
           exact Option.noConfusion hstop)
        | exact validateTail_stop_target _ _ _ _ _ _ _ _ (ne_of_gt hlatest) hres hstop

/-- Witness for C3 at the accepted Buy scenario entry 100, target 110,
stop 95, budget 1000, live price 100: the recomputed stop 95 carries the
original -5% risk and the target is returned unchanged. -/
theorem recomputed_stop_preserves_risk_witness :
    ((95 : ℚ) - 100) / 100 = ((95 : ℚ) - 100) / 100 ∧
    (Decision.accept 100 110 95 10).targetOpt = some 110 :=
  recomputed_stop_preserves_risk .buy none (some 1000) 100 110 95 100
    (.accept 100 110 95 10) 95 (by norm_num)
    (by norm_num +decide [validate_latest_price_and_stoploss, validateTail, abs_eq_max_neg])
    rfl

lemma validateTail_no_postcheck (action : TradeAction)
    (startingPrice targetSellPrice stopLossPrice latestPrice : ℚ) (q : ℤ)
    (hstart : 0 < startingPrice) (hlatest : 0 < latestPrice)
    (hbuy : action = TradeAction.buy → stopLossPrice < startingPrice)
    (hsell : action = TradeAction.sell → startingPrice < stopLossPrice) :
    validateTail action startingPrice targetSellPrice stopLossPrice latestPrice q ≠
      .error .postCheckFailed := by
  intro hres
  simp only [validateTail] at hres
  split_ifs at hres with h1 h2 h3 h4 h5 h6
  · obtain ⟨hb, hdisj⟩ := h5
    have hlt : latestPrice < targetSellPrice := lt_of_not_ge (fun hge => h1 ⟨hb, hge⟩)
    have hsl : stopLossPrice < startingPrice := hbuy hb
    have hp : (stopLossPrice - startingPrice) / startingPrice < 0 :=
      div_neg_of_neg_of_pos (by linarith) hstart
    have hmul : latestPrice * ((stopLossPrice - startingPrice) / startingPrice) < 0 :=
      mul_neg_of_pos_of_neg hlatest hp
    rcases hdisj with hta | hstop
    · linarith
    · linarith
  · obtain ⟨hs, hdisj⟩ := h6
    have hlt : targetSellPrice < latestPrice := lt_of_not_ge (fun hge => h2 ⟨hs, hge⟩)
    have hsl : startingPrice < stopLossPrice := hsell hs
    have hp : 0 < (stopLossPrice - startingPrice) / startingPrice :=
      div_pos (by linarith) hstart
    have hmul : 0 < latestPrice * ((stopLossPrice - startingPrice) / startingPrice) :=
      mul_pos hlatest hp
    rcases hdisj with hta | hstop
    · linarith
    · linarith

/-- C6 amended: with the additional hypothesis that the expected entry
price is positive (together with a positive latest price), the step-8
fatal re-check is unreachable: the Validator never raises the
post-condition ordering exception, for any action, quantity, budget and
target/stop prices. -/
theorem postcheck_unreachable_for_positive_entry
    (action : TradeAction) (qty : Option ℤ) (investmentAmount : Option ℚ)
    (startingPrice targetSellPrice stopLossPrice latestPrice : ℚ)
    (hstart : 0 < startingPrice) (hlatest : 0 < latestPrice) :
    validate_latest_price_and_stoploss action qty investmentAmount
      startingPrice targetSellPrice stopLossPrice latestPrice ≠
      .error .postCheckFailed := by
  intro hres
  cases investmentAmount with
  | none =>
    simp only [validate_latest_price_and_stoploss] at hres
    split_ifs at hres <;> simp at hres
  | some budget =>
    simp only [validate_latest_price_and_stoploss] at hres
    split_ifs at hres with h1 h2 h3 h4 h5
    · simp at hres
    · simp at hres
    · simp at hres
    · exact validateTail_no_postcheck _ _ _ _ _ _ hstart hlatest
        (fun hb => lt_of_not_ge (fun hge => h2 ⟨hb, Or.inr hge⟩))
        (fun hs => lt_of_not_ge (fun hge => h3 ⟨hs, Or.inr hge⟩)) hres

/-- Witness for the amended C6 at entry 100 > 0, live price 100 > 0. -/
theorem postcheck_unreachable_witness :
    validate_latest_price_and_stoploss .buy none (some 1000) 100 110 95 100 ≠
      .error .postCheckFailed :=
  postcheck_unreachable_for_positive_entry .buy none (some 1000) 100 110 95 100
    (by norm_num) (by norm_num)

lemma validateTail_reason_ne_budget (action : TradeAction)
    (startingPrice targetSellPrice stopLossPrice latestPrice : ℚ) (q : ℤ) :
    vReason (validateTail action startingPrice targetSellPrice stopLossPrice latestPrice q) ≠
      some VReject.budgetExceeded := by
  simp only [validateTail]
  split_ifs <;> simp [vReason]

/-- C7: the budget-exceeded rejection fires only when an explicit quantity
was supplied.  For every positive latest price,
`floor(investment_budget / latest_price) * latest_price ≤ investment_budget`
holds exactly, and consequently a validation call with an unspecified
quantity (`qty = none`) can never produce the `budget_exceeded` rejection
reason. -/
theorem derived_qty_never_budget_exceeded
    (action : TradeAction) (investmentAmount : ℚ)
    (startingPrice targetSellPrice stopLossPrice latestPrice : ℚ)
    (hlatest : 0 < latestPrice) :
    (⌊investmentAmount / latestPrice⌋ : ℚ) * latestPrice ≤ investmentAmount ∧
    vReason (validate_latest_price_and_stoploss action none (some investmentAmount)
      startingPrice targetSellPrice stopLossPrice latestPrice) ≠
      some VReject.budgetExceeded := by
  have hfloor : (⌊investmentAmount / latestPrice⌋ : ℚ) * latestPrice ≤ investmentAmount := by
    have h1 : (⌊investmentAmount / latestPrice⌋ : ℚ) ≤ investmentAmount / latestPrice :=
      Int.floor_le _
    calc (⌊investmentAmount / latestPrice⌋ : ℚ) * latestPrice
        ≤ investmentAmount / latestPrice * latestPrice :=
          mul_le_mul_of_nonneg_right h1 (le_of_lt hlatest)
      _ = investmentAmount := div_mul_cancel₀ _ (ne_of_gt hlatest)
  refine ⟨hfloor, ?_⟩
  intro hre
  simp only [validate_latest_price_and_stoploss, Option.getD_none] at hre
  split_ifs at hre with h1 h2 h3 h4 h5
  · simp [vReason] at hre
  · simp [vReason] at hre
  · simp [vReason] at hre
  · simp [vReason] at hre
  · exact absurd h5 (not_lt.mpr hfloor)
  · exact validateTail_reason_ne_budget _ _ _ _ _ _ hre

/-- Witness for C7 at latest price 100 > 0, budget 1000. -/
theorem derived_qty_never_budget_exceeded_witness :
    (⌊(1000 : ℚ) / 100⌋ : ℚ) * 100 ≤ 1000 ∧
    vReason (validate_latest_price_and_stoploss .buy none (some 1000) 100 110 95 100) ≠
      some VReject.budgetExceeded :=
  derived_qty_never_budget_exceeded .buy 1000 100 110 95 100 (by norm_num)

lemma validateTail_past_target_rejects (action : TradeAction)
    (startingPrice targetSellPrice stopLossPrice latestPrice : ℚ) (q : ℤ)
    (h : (action = TradeAction.buy ∧ targetSellPrice ≤ latestPrice) ∨
         (action = TradeAction.sell ∧ latestPrice ≤ targetSellPrice)) :
    isSoftReject (validateTail action startingPrice targetSellPrice stopLossPrice
      latestPrice q) = true := by
  rcases h with ⟨hb, hle⟩ | ⟨hs, hle⟩
  · subst hb
    simp only [validateTail]
    rw [if_pos (And.intro (by trivial) hle)]
    rfl
  · subst hs
    simp only [validateTail]
    rw [if_neg (by simp), if_pos (And.intro (by trivial) hle)]
    rfl

lemma isAccept_eq_false_of_soft (r : Except PyErr Decision)
    (h : isSoftReject r = true) : isAccept r = false := by
  cases r with
  | error e => rfl
  | ok d => cases d <;> simp_all [isSoftReject, isAccept]

/-- C9: for every Buy input satisfying the Validator's preconditions
(stop < entry < target and a non-null budget) with the latest price at or
past the target (`latestPrice ≥ target`), the Validator soft-rejects and
never accepts; symmetrically for Sell when `latestPrice ≤ target`. -/
theorem never_accepts_past_target (action : TradeAction) (qty : Option ℤ)
    (budget : ℚ) (startingPrice targetSellPrice stopLossPrice latestPrice : ℚ)
    (hpre : (action = TradeAction.buy ∧ stopLossPrice < startingPrice ∧
              startingPrice < targetSellPrice ∧ targetSellPrice ≤ latestPrice) ∨
            (action = TradeAction.sell ∧ targetSellPrice < startingPrice ∧
              startingPrice < stopLossPrice ∧ latestPrice ≤ targetSellPrice)) :
    isSoftReject (validate_latest_price_and_stoploss action qty (some budget)
      startingPrice targetSellPrice stopLossPrice latestPrice) = true ∧
    isAccept (validate_latest_price_and_stoploss action qty (some budget)
      startingPrice targetSellPrice stopLossPrice latestPrice) = false := by
  have hsr : isSoftReject (validate_latest_price_and_stoploss action qty (some budget)
      startingPrice targetSellPrice stopLossPrice latestPrice) = true := by
    simp only [validate_latest_price_and_stoploss]
    split_ifs with h1 h2 h3 h4 h5
    · rcases hpre with ⟨hb, _⟩ | ⟨hs, _⟩
      · exact absurd hb h1.1
      · exact absurd hs h1.2
    · rcases hpre with ⟨hb, hso, hst, _⟩ | ⟨hs, _, _, _⟩
      · rcases h2.2 with h | h
        · exact absurd h (not_le.mpr hst)
        · exact absurd h (not_le.mpr hso)
      · rw [hs] at h2
        exact absurd h2.1 (by simp)
    · rcases hpre with ⟨hb, _, _, _⟩ | ⟨hs, hso, hst, _⟩
      · rw [hb] at h3
        exact absurd h3.1 (by simp)
      · rcases h3.2 with h | h
        · exact absurd h (not_le.mpr hso)
        · exact absurd h (not_le.mpr hst)
    · rfl
    · rfl
    · refine validateTail_past_target_rejects _ _ _ _ _ _ ?_
      rcases hpre with ⟨hb, _, _, hle⟩ | ⟨hs, _, _, hle⟩
      · exact Or.inl ⟨hb, hle⟩
      · exact Or.inr ⟨hs, hle⟩
  exact ⟨hsr, isAccept_eq_false_of_soft _ hsr⟩

/-- Witness for C9: Buy with stop 95 < entry 100 < target 110 and latest
price 110 at the target is soft-rejected, not accepted. -/
theorem never_accepts_past_target_witness :
    isSoftReject (validate_latest_price_and_stoploss .buy none (some 1000)
      100 110 95 110) = true ∧
    isAccept (validate_latest_price_and_stoploss .buy none (some 1000)
      100 110 95 110) = false :=
  never_accepts_past_target .buy none 1000 100 110 95 110
    (Or.inl ⟨rfl, by norm_num, by norm_num, by norm_num⟩)

lemma validateTail_reject_fields (action : TradeAction)
    (startingPrice targetSellPrice stopLossPrice latestPrice : ℚ) (q0 : ℤ)
    (r : VReject) (p : ℚ) (t s : Option ℚ) (q : ℤ)
    (hres : validateTail action startingPrice targetSellPrice stopLossPrice latestPrice q0 =
      .ok (.reject r p t s q)) :
    p = latestPrice ∧
    (r ≠ VReject.riskExceedsReward → t = none ∧ s = none) ∧
    (r = VReject.riskExceedsReward → t = some targetSellPrice ∧
      s = some (latestPrice + latestPrice *
        ((stopLossPrice - startingPrice) / startingPrice))) := by
  simp only [validateTail] at hres
  split_ifs at hres <;>
    first
      | exact Except.noConfusion hres
      | (injection hres with h
         exact Decision.noConfusion h)
      | (injection hres with h
         injection h with hr hp ht hs hq
         subst hr
         subst hp
         subst ht
         subst hs
         simp)

/-- C10: whenever the Validator soft-rejects for `budget_too_small`,
`budget_exceeded`, `target_already_hit` or `no_action` (i.e. any reason
other than `risk_exceeds_reward`), the returned tuple carries no target
price and no stop-loss price (both positions are `None`) while the latest
price is still reported in the entry position; a `risk_exceeds_reward`
rejection instead carries the original target and the recomputed
stop-loss (and an acceptance carries both by construction). -/
theorem early_rejects_have_no_prices (action : TradeAction) (qty : Option ℤ)
    (investmentAmount : Option ℚ)
    (startingPrice targetSellPrice stopLossPrice latestPrice : ℚ)
    (r : VReject) (p : ℚ) (t s : Option ℚ) (q : ℤ)
    (hres : validate_latest_price_and_stoploss action qty investmentAmount
      startingPrice targetSellPrice stopLossPrice latestPrice =
      .ok (.reject r p t s q)) :
    p = latestPrice ∧
    (r ≠ VReject.riskExceedsReward → t = none ∧ s = none) ∧
    (r = VReject.riskExceedsReward → t = some targetSellPrice ∧
      s = some (latestPrice + latestPrice *
        ((stopLossPrice - startingPrice) / startingPrice))) := by
  cases investmentAmount with
  | none =>
    simp only [validate_latest_price_and_stoploss] at hres
    split_ifs at hres
  | some budget =>
    simp only [validate_latest_price_and_stoploss] at hres
    split_ifs at hres <;>
      first
        | (injection hres with h
           injection h with hr hp ht hs hq
           subst hr
           subst hp
           subst ht
           subst hs
           simp)
        | exact validateTail_reject_fields _ _ _ _ _ _ _ _ _ _ _ hres

/-- Witness for C10 at the target-already-hit rejection (Buy, entry 100,
target 110, stop 95, budget 1000, live price 120, derived quantity 8). -/
theorem early_rejects_have_no_prices_witness :
    (120 : ℚ) = 120 ∧
    (VReject.targetAlreadyHit ≠ VReject.riskExceedsReward →
      (none : Option ℚ) = none ∧ (none : Option ℚ) = none) ∧
    (VReject.targetAlreadyHit = VReject.riskExceedsReward →
      (none : Option ℚ) = some 110 ∧
      (none : Option ℚ) = some (120 + 120 * (((95 : ℚ) - 100) / 100))) :=
  early_rejects_have_no_prices .buy none (some 1000) 100 110 95 120
    .targetAlreadyHit 120 none none 8
    (by norm_num +decide [validate_latest_price_and_stoploss, validateTail, abs_eq_max_neg])
